import Mathlib

/-!
Verification of the operator construction and layer-composition engine of
the OpenDAL core (`src/core/src/types/operator/builder.rs`).

The Rust code composes a backend capability instance (`Accessor`) with a
stack of layers.  A layer application `l.layer(acc)` wraps `acc` in a new
accessor; the shallow embedding therefore represents a capability instance
as a tree of layer wraps over a base accessor, and every function of the
source file is translated over that representation:

  * `OperatorBuilder::new` / `layer` / `finish`,
  * `Operator::new` / `from_map` / `via_map` / `layer` / `from_inner`,
  * the lazily initialised process-wide `RUNTIME` (a `once_cell` `Lazy`,
    an external crate whose contract is exactly-once initialisation; it is
    modelled as an explicitly threaded `RuntimeState`),
  * `tokio::runtime::Handle::try_current` (modelled by a boolean saying
    whether the calling context is inside an ambient scheduler).

Types of the repository that are outside the excerpted file (`Error`,
`Scheme`, `BlockingLayer::create`) are modelled from the specification, as
their doc comments say.
-/

/-- Tags naming the layers that occur in `builder.rs`: the mandatory inner
layers (`ErrorContextLayer`, `CompleteLayer`), the internal
`TypeEraseLayer`, the outer `BlockingLayer` and `LoggingLayer`, and
caller-supplied user layers (identified by a number). -/
inductive LayerTag : Type where
  | errorContext : LayerTag
  | complete : LayerTag
  | typeErase : LayerTag
  | blocking : LayerTag
  | logging : LayerTag
  | user : Nat → LayerTag
deriving DecidableEq

/-- A capability instance: a base accessor (produced by some builder,
identified by a number) wrapped by zero or more layers.  `Layer::layer`
in Rust consumes an accessor and returns it wrapped; here that is the
`wrap` constructor. -/
inductive Accessor : Type where
  | base : Nat → Accessor
  | wrap : LayerTag → Accessor → Accessor
deriving DecidableEq

/-- `l.layer(inner)`: apply a layer to a capability instance
(the `Layer` trait's single method; total, it cannot fail). -/
def LayerTag.layer (l : LayerTag) (inner : Accessor) : Accessor :=
  Accessor.wrap l inner

/-- The stack of layers wrapped around the base accessor, outermost
first. -/
def Accessor.layers : Accessor → List LayerTag
  | .base _ => []
  | .wrap l a => l :: a.layers

/-- Failure kinds (modelled from the spec's failure taxonomy; the `Error`
type lives outside the excerpted file). -/
inductive ErrorKind : Type where
  | unsupported : ErrorKind
  | configInvalid : ErrorKind
  | notFound : ErrorKind
  | permissionDenied : ErrorKind
  | alreadyExists : ErrorKind
  | unexpected : ErrorKind
deriving DecidableEq

/-- Modelled from the spec: an `Error` value carries a classified kind, a
message and structured context (key-value pairs attached progressively);
the concrete `Error` type is outside the excerpted file. -/
structure Error : Type where
  kind : ErrorKind
  message : String
  context : List (String × String)
deriving DecidableEq

/-- `Error::new(kind, message)`: a fresh error with empty context
(modelled from the spec). -/
def Error.new (k : ErrorKind) (msg : String) : Error :=
  ⟨k, msg, []⟩

/-- `Error::with_context(key, value)`: attach one context pair
(modelled from the spec: context is attached progressively). -/
def Error.with_context (e : Error) (key value : String) : Error :=
  { e with context := e.context ++ [(key, value)] }

/-- Modelled from the spec: the closed enumeration of backend scheme
identifiers (the `Scheme` type is outside the excerpted file); a sample
of the variants matched in `via_map` suffices for the claims, since which
arms are compiled in is a separate function below. -/
inductive Scheme : Type where
  | azblob : Scheme
  | fs : Scheme
  | ftp : Scheme
  | gcs : Scheme
  | http : Scheme
  | memory : Scheme
  | redis : Scheme
  | s3 : Scheme
  | webdav : Scheme
deriving DecidableEq

/-- Modelled from the spec: schemes are string-backed tokens; this is the
string used when the scheme is attached as error context. -/
def Scheme.toStr : Scheme → String
  | .azblob => "azblob"
  | .fs => "fs"
  | .ftp => "ftp"
  | .gcs => "gcs"
  | .http => "http"
  | .memory => "memory"
  | .redis => "redis"
  | .s3 => "s3"
  | .webdav => "webdav"

/-- A configuration mapping (string keys to string values); the claims
never inspect it, so an association list suffices. -/
def ConfigMap : Type := List (String × String)

/-- A builder value (`B: Builder` in Rust): its `build()` consumes the
configuration state already set on it and produces a capability instance
or a construction error. -/
structure Builder : Type where
  build : Except Error Accessor

/-- A builder type (the compile-time `B` of `from_map::<B>`): its static
`from_map` turns a configuration mapping into a builder value. -/
structure BuilderType : Type where
  from_map : ConfigMap → Builder

/-- `OperatorBuilder<A>`: single-field wrapper holding one capability
instance (`accessor`).  The Rust type parameter tracks the concrete
accessor type; the shallow embedding keeps the instance itself. -/
structure OperatorBuilder : Type where
  accessor : Accessor
deriving DecidableEq

/-- `Operator`: the type-erased facade, holding one reference-counted
`FusedAccessor` (`inner`). -/
structure Operator : Type where
  inner : Accessor
deriving DecidableEq

/-- `Operator::from_inner`. -/
def Operator.from_inner (a : Accessor) : Operator :=
  ⟨a⟩

/-- `Operator::into_inner`. -/
def Operator.into_inner (o : Operator) : Accessor :=
  o.inner

/-- `OperatorBuilder::layer`: consume the builder, apply the layer to the
held accessor (`layer.layer(self.accessor)`), return the new builder. -/
def OperatorBuilder.layer (self : OperatorBuilder) (l : LayerTag) : OperatorBuilder :=
  ⟨l.layer self.accessor⟩

/-- `OperatorBuilder::new`: wrap the accessor, then apply
`ErrorContextLayer`, then `CompleteLayer`
(`OperatorBuilder { accessor }.layer(ErrorContextLayer).layer(CompleteLayer)`). -/
def OperatorBuilder.new (accessor : Accessor) : OperatorBuilder :=
  ((OperatorBuilder.mk accessor).layer .errorContext).layer .complete

/-- `Operator::layer` (dynamic):
`Self::from_inner(Arc::new(TypeEraseLayer.layer(layer.layer(self.into_inner()))))`. -/
def Operator.layer (self : Operator) (l : LayerTag) : Operator :=
  Operator.from_inner (LayerTag.typeErase.layer (l.layer self.into_inner))

/-- State of the process-wide `RUNTIME` (`static RUNTIME: Lazy<Runtime>`):
whether the lazy cell has been initialised, plus a ghost counter of how
many schedulers were ever created.  `once_cell`'s `Lazy` is an external
crate whose contract is race-free exactly-once initialisation, so forcing
it is modelled as one atomic state transition. -/
structure RuntimeState : Type where
  created : Bool
  createdCount : Nat
deriving DecidableEq

/-- The runtime state at process start: nothing created. -/
def rtInit : RuntimeState :=
  ⟨false, 0⟩

/-- Forcing `RUNTIME` (first dereference of the `Lazy`): builds the
multi-thread runtime exactly once; later dereferences reuse it. -/
def forceRUNTIME (st : RuntimeState) : RuntimeState :=
  if st.created then st else ⟨true, st.createdCount + 1⟩

/-- A scheduler handle: either the ambient runtime the calling context is
already inside, or the process-wide shared runtime. -/
inductive Handle : Type where
  | ambient : Handle
  | shared : Handle
deriving DecidableEq

/-- `tokio::runtime::Handle::try_current()`: the ambient handle when the
calling context is inside a running scheduler, none otherwise. -/
def try_current (insideRt : Bool) : Option Handle :=
  if insideRt then some Handle.ambient else none

/-- `Handle::try_current().unwrap_or_else(|_| RUNTIME.handle().clone())`:
reuse the ambient scheduler, or force the shared `RUNTIME` and take its
handle. -/
def resolveRuntime (insideRt : Bool) (st : RuntimeState) : Handle × RuntimeState :=
  match try_current insideRt with
  | some h => (h, st)
  | none => (Handle.shared, forceRUNTIME st)

/-- Modelled from the spec: `BlockingLayer::create` (outside the excerpted
file) builds the blocking bridge from the scheduler context the caller has
entered; it succeeds exactly when such a context exists and fails
otherwise. -/
def BlockingLayer.create (current : Option Handle) : Except Error LayerTag :=
  match current with
  | some _ => Except.ok LayerTag.blocking
  | none => Except.error (Error.new .unexpected "no runtime context entered")

/-- `OperatorBuilder::finish`: apply `TypeEraseLayer`, resolve a scheduler
(ambient or shared `RUNTIME`), enter it (`let _guard = runtime.enter()`,
so the current context now holds the resolved handle), then build the
`Operator` and apply `BlockingLayer::create().unwrap()` and
`LoggingLayer::default()` through `Operator::layer`.  The `unwrap` is
modelled as propagating the error so that its unreachability is a theorem
rather than an assumption. -/
def OperatorBuilder.finish (self : OperatorBuilder) (insideRt : Bool)
    (st : RuntimeState) : Except Error Operator × RuntimeState :=
  let ob := self.layer .typeErase
  let hst := resolveRuntime insideRt st
  match BlockingLayer.create (some hst.1) with
  | .ok bl =>
      (Except.ok (((Operator.from_inner ob.accessor).layer bl).layer .logging), hst.2)
  | .error e => (Except.error e, hst.2)

/-- `Operator::new(ab)`: `let acc = ab.build()?; Ok(OperatorBuilder::new(acc))`. -/
def Operator.new (ab : Builder) : Except Error OperatorBuilder := do
  let acc ← ab.build
  pure (OperatorBuilder.new acc)

/-- `Operator::from_map::<B>(map)`:
`let acc = B::from_map(map).build()?; Ok(OperatorBuilder::new(acc))`. -/
def Operator.from_map (B : BuilderType) (map : ConfigMap) : Except Error OperatorBuilder := do
  let acc ← (B.from_map map).build
  pure (OperatorBuilder.new acc)

/-- `Operator::via_map(scheme, map)`: the feature-gated match over the
closed scheme set.  Which arms are compiled in is the `enabled` function
(an arm `Scheme::X => Self::from_map::<services::X>(map)?.finish()` exists
exactly when `enabled` returns that backend's builder type); every scheme
without an arm falls to the fallback that returns the `Unsupported` error
carrying the scheme as context. -/
def Operator.via_map (enabled : Scheme → Option BuilderType) (scheme : Scheme)
    (map : ConfigMap) (insideRt : Bool) (st : RuntimeState) :
    Except Error Operator × RuntimeState :=
  match enabled scheme with
  | some B =>
      match Operator.from_map B map with
      | .ok ob => ob.finish insideRt st
      | .error e => (Except.error e, st)
  | none =>
      (Except.error ((Error.new .unsupported
          "scheme is not enabled or supported").with_context "scheme" scheme.toStr), st)

/-- Spec-side definition for the refinement claim about `via_map`:
`from_map::<B>(map)?.finish()`, written directly from the spec's words
"delegates to `from_map` with that backend's `Builder` type and finishes
immediately". -/
def fromMapThenFinish (B : BuilderType) (map : ConfigMap) (insideRt : Bool)
    (st : RuntimeState) : Except Error Operator × RuntimeState :=
  match Operator.from_map B map with
  | .ok ob => ob.finish insideRt st
  | .error e => (Except.error e, st)

/-- Spec-side definition for the refinement claim about `from_map`:
"equivalent to the above after running `from_map`", i.e.
`Operator::new(B::from_map(map))`. -/
def newOfFromMap (B : BuilderType) (map : ConfigMap) : Except Error OperatorBuilder :=
  Operator.new (B.from_map map)

/-- The runtime-state effect of one `finish()` call (the part of `finish`
that touches the shared `RUNTIME`). -/
def finishRt (insideRt : Bool) (st : RuntimeState) : RuntimeState :=
  (resolveRuntime insideRt st).2

/-- Run a sequence of `finish()` calls, each tagged with whether its
calling context is inside an ambient scheduler, threading the process-wide
runtime state. -/
def runFinishSeq (calls : List Bool) (st : RuntimeState) : RuntimeState :=
  match calls with
  | [] => st
  | a :: rest => runFinishSeq rest (finishRt a st)

/-- Fixture: a builder type whose builder always builds successfully
(base accessor number 1), used to instantiate hypothesis-carrying
theorems. -/
def testBuilderOk : BuilderType :=
  ⟨fun _ => ⟨Except.ok (Accessor.base 1)⟩⟩

/-- Fixture: a construction error, used to instantiate
hypothesis-carrying theorems. -/
def testErr : Error :=
  Error.new .configInvalid "root is not specified"

/-- Fixture: a builder whose `build()` fails with `testErr`. -/
def testBuilderBad : Builder :=
  ⟨Except.error testErr⟩

/-- Fixture: a builder type whose builders always fail. -/
def testBuilderTypeBad : BuilderType :=
  ⟨fun _ => testBuilderBad⟩

/-- An ambient-context `finish()` call leaves the runtime state
untouched. -/
theorem finishRt_keeps_created (a : Bool) (st : RuntimeState)
    (h : st.created = true) : finishRt a st = st := by
  cases a with
  | true => rfl
  | false => simp [finishRt, resolveRuntime, try_current, forceRUNTIME, h]

/-- Once the shared runtime exists, any sequence of further `finish()`
calls leaves the runtime state untouched. -/
theorem runFinishSeq_keeps_created (calls : List Bool) (st : RuntimeState)
    (h : st.created = true) : runFinishSeq calls st = st := by
  induction calls with
  | nil => rfl
  | cons a rest ih =>
      rw [runFinishSeq, finishRt_keeps_created a st h]
      exact ih

/-- C1: `OperatorBuilder::new(a)` holds `a` wrapped first by
`ErrorContextLayer` and then by `CompleteLayer`, in that fixed order, and
any caller-supplied layer applied afterwards via `OperatorBuilder::layer`
wraps outside both mandatory layers. -/
theorem opbuilder_new_mandatory_inner_layers (a : Accessor) :
    (OperatorBuilder.new a).accessor
        = Accessor.wrap .complete (Accessor.wrap .errorContext a)
      ∧ ∀ l : LayerTag, ((OperatorBuilder.new a).layer l).accessor
        = Accessor.wrap l (Accessor.wrap .complete (Accessor.wrap .errorContext a)) :=
  ⟨rfl, fun _ => rfl⟩

/-- C10: `OperatorBuilder::layer(L)` sets the held accessor to exactly `L`
applied to the previously held accessor — the layer stack grows by exactly
`L` and nothing else (and the call is total: it always returns the new
builder). -/
theorem opbuilder_layer_exact_wrap (b : OperatorBuilder) (l : LayerTag) :
    (b.layer l).accessor = Accessor.wrap l b.accessor
      ∧ (b.layer l).accessor.layers = l :: b.accessor.layers :=
  ⟨rfl, rfl⟩

/-- C6 counterexample: on the concrete operator holding `base 0`,
`Operator::layer(L)` yields `TypeErase(L(base 0))` — the layer `L` is
applied directly to the held instance and the type-erasure wrap comes
after it, not before as the claim states. -/
theorem operator_layer_order_cex :
    ((Operator.from_inner (Accessor.base 0)).layer (LayerTag.user 0)).inner
        = Accessor.wrap .typeErase (Accessor.wrap (.user 0) (Accessor.base 0))
      ∧ ((Operator.from_inner (Accessor.base 0)).layer (LayerTag.user 0)).inner
        ≠ Accessor.wrap (.user 0) (Accessor.wrap .typeErase (Accessor.base 0)) :=
  ⟨rfl, by decide⟩

/-- C6 (amended): `Operator::layer(L)` applies `L` directly to the held
already-erased instance and then re-erases the combined result through the
type-erasure layer into the stable handle type — the application of `L`
precedes the re-erasure step. -/
theorem operator_layer_applies_then_erases (o : Operator) (l : LayerTag) :
    (o.layer l).inner = Accessor.wrap .typeErase (Accessor.wrap l o.inner)
      ∧ (o.layer l).inner.layers = .typeErase :: l :: o.inner.layers :=
  ⟨rfl, rfl⟩

/-- C2 counterexample: on the concrete builder holding `base 0`, `finish`
produces `TypeErase(Logging(TypeErase(Blocking(TypeErase(base 0)))))`:
not the three-wrap stack with logging outermost the claim describes, and
its outermost wrapper is the type-erasure layer, not the logging layer. -/
theorem finish_outermost_cex :
    ((OperatorBuilder.mk (Accessor.base 0)).finish true rtInit).1
        = Except.ok ⟨Accessor.wrap .typeErase (Accessor.wrap .logging (Accessor.wrap
            .typeErase (Accessor.wrap .blocking (Accessor.wrap .typeErase
            (Accessor.base 0)))))⟩
      ∧ (Accessor.wrap .typeErase (Accessor.wrap .logging (Accessor.wrap .typeErase
            (Accessor.wrap .blocking (Accessor.wrap .typeErase (Accessor.base 0)))))
          ≠ Accessor.wrap .logging (Accessor.wrap .blocking (Accessor.wrap .typeErase
            (Accessor.base 0))))
      ∧ (Accessor.wrap .typeErase (Accessor.wrap .logging (Accessor.wrap .typeErase
            (Accessor.wrap .blocking (Accessor.wrap .typeErase
            (Accessor.base 0)))))).layers.head? ≠ some .logging :=
  ⟨rfl, by decide, by decide⟩

/-- C2 (amended): `finish` wraps the held accessor with the type-erasure
layer, then — each application going through `Operator::layer`, which
re-erases around it — with the blocking-bridge layer and then the logging
layer; the result is exactly
`TypeErase(Logging(TypeErase(Blocking(TypeErase(acc)))))`, so logging is
the outermost behavior layer while the final type-erasure boundary is the
outermost wrapper, and no layer other than these three kinds is added. -/
theorem finish_layer_structure (b : OperatorBuilder) (insideRt : Bool)
    (st : RuntimeState) :
    ((b.finish insideRt st).1
        = Except.ok ⟨Accessor.wrap .typeErase (Accessor.wrap .logging (Accessor.wrap
            .typeErase (Accessor.wrap .blocking (Accessor.wrap .typeErase
            b.accessor))))⟩) :=
  rfl

/-- C3: `via_map` on a scheme without a compiled-in arm returns an error
of kind `Unsupported` whose context contains the key `"scheme"` with the
offending scheme value, and never returns an `Operator` (the fallback arm
only constructs an error; no panic site exists on this path). -/
theorem via_map_unknown_unsupported (enabled : Scheme → Option BuilderType)
    (s : Scheme) (m : ConfigMap) (insideRt : Bool) (st : RuntimeState)
    (h : enabled s = none) :
    (∃ e : Error, (Operator.via_map enabled s m insideRt st).1 = Except.error e
        ∧ e.kind = .unsupported ∧ ("scheme", s.toStr) ∈ e.context)
      ∧ ∀ op : Operator, (Operator.via_map enabled s m insideRt st).1 ≠ Except.ok op := by
  unfold Operator.via_map
  rw [h]
  refine ⟨⟨_, rfl, rfl, ?_⟩, fun op hop => Except.noConfusion hop⟩
  simp [Error.with_context, Error.new]

/-- Witness for C3: the fallback at the concrete scheme `ftp` with no arm
compiled in. -/
theorem via_map_unknown_unsupported_w :
    (∃ e : Error, (Operator.via_map (fun _ => none) .ftp [] true rtInit).1
          = Except.error e
        ∧ e.kind = .unsupported ∧ ("scheme", Scheme.toStr .ftp) ∈ e.context)
      ∧ ∀ op : Operator,
        (Operator.via_map (fun _ => none) .ftp [] true rtInit).1 ≠ Except.ok op :=
  via_map_unknown_unsupported (fun _ => none) .ftp [] true rtInit rfl

/-- C4: `via_map` on a scheme whose arm is compiled in produces exactly
`from_map::<B>(map)?.finish()` — the same operator on success and the same
construction error on failure, with the same runtime-state effect. -/
theorem via_map_known_delegates (enabled : Scheme → Option BuilderType)
    (s : Scheme) (m : ConfigMap) (insideRt : Bool) (st : RuntimeState)
    (B : BuilderType) (h : enabled s = some B) :
    Operator.via_map enabled s m insideRt st = fromMapThenFinish B m insideRt st := by
  unfold Operator.via_map fromMapThenFinish
  rw [h]

/-- Witness for C4: the delegation at the concrete scheme `fs` mapped to
the always-succeeding test builder type. -/
theorem via_map_known_delegates_w :
    Operator.via_map (fun _ => some testBuilderOk) .fs [] true rtInit
      = fromMapThenFinish testBuilderOk [] true rtInit :=
  via_map_known_delegates (fun _ => some testBuilderOk) .fs [] true rtInit
    testBuilderOk rfl

/-- C5: `Operator::from_map::<B>(m)` is `Operator::new(B::from_map(m))`:
the two construction paths agree on every input, and on success both
return the composition context `OperatorBuilder::new(acc)`, whose held
instance already carries the mandatory inner layers. -/
theorem from_map_refines_new (B : BuilderType) (m : ConfigMap) :
    Operator.from_map B m = newOfFromMap B m
      ∧ ∀ acc : Accessor, (B.from_map m).build = Except.ok acc →
          Operator.from_map B m = Except.ok (OperatorBuilder.new acc) := by
  refine ⟨rfl, fun acc h => ?_⟩
  unfold Operator.from_map
  rw [h]
  rfl

/-- Witness for C5: both construction paths at the always-succeeding test
builder type and the empty configuration. -/
theorem from_map_refines_new_w :
    Operator.from_map testBuilderOk [] = newOfFromMap testBuilderOk []
      ∧ Operator.from_map testBuilderOk []
          = Except.ok (OperatorBuilder.new (Accessor.base 1)) :=
  ⟨(from_map_refines_new testBuilderOk []).1,
    (from_map_refines_new testBuilderOk []).2 (Accessor.base 1) rfl⟩

/-- C7: a failing `build()` makes `Operator::new` (and a failing
`B::from_map(m).build()` makes `Operator::from_map`) return exactly that
construction error, and no composition context is produced. -/
theorem construction_error_fatal (b : Builder) (B : BuilderType)
    (m : ConfigMap) (e : Error) :
    (b.build = Except.error e →
        Operator.new b = Except.error e
          ∧ ∀ ob : OperatorBuilder, Operator.new b ≠ Except.ok ob)
      ∧ ((B.from_map m).build = Except.error e →
        Operator.from_map B m = Except.error e
          ∧ ∀ ob : OperatorBuilder, Operator.from_map B m ≠ Except.ok ob) := by
  constructor
  · intro h
    have hn : Operator.new b = Except.error e := by
      unfold Operator.new
      rw [h]
      rfl
    exact ⟨hn, fun ob hob => by rw [hn] at hob; exact Except.noConfusion hob⟩
  · intro h
    have hn : Operator.from_map B m = Except.error e := by
      unfold Operator.from_map
      rw [h]
      rfl
    exact ⟨hn, fun ob hob => by rw [hn] at hob; exact Except.noConfusion hob⟩

/-- Witness for C7: the failing test builder propagates `testErr` through
both `Operator::new` and `Operator::from_map`. -/
theorem construction_error_fatal_w :
    (Operator.new testBuilderBad = Except.error testErr
        ∧ ∀ ob : OperatorBuilder, Operator.new testBuilderBad ≠ Except.ok ob)
      ∧ (Operator.from_map testBuilderTypeBad [] = Except.error testErr
        ∧ ∀ ob : OperatorBuilder,
          Operator.from_map testBuilderTypeBad [] ≠ Except.ok ob) :=
  ⟨(construction_error_fatal testBuilderBad testBuilderTypeBad [] testErr).1 rfl,
    (construction_error_fatal testBuilderBad testBuilderTypeBad [] testErr).2 rfl⟩

/-- C8: a `finish()` call from inside an ambient scheduler leaves the
runtime state untouched (no scheduler is created), and across any sequence
of `finish()` calls starting at process start, the number of schedulers
ever created is one if any call came from a purely synchronous context and
zero otherwise — the first synchronous call initialises the shared runtime
and every later call reuses it. -/
theorem finish_runtime_single_creation :
    (∀ st : RuntimeState, finishRt true st = st)
      ∧ ∀ calls : List Bool,
        (runFinishSeq calls rtInit).createdCount
          = if false ∈ calls then 1 else 0 := by
  refine ⟨fun st => rfl, fun calls => ?_⟩
  induction calls with
  | nil => rfl
  | cons a rest ih =>
      cases a with
      | true =>
          rw [runFinishSeq]
          have h1 : finishRt true rtInit = rtInit := rfl
          rw [h1, ih]
          simp
      | false =>
          rw [runFinishSeq]
          have h1 : finishRt false rtInit = ⟨true, 1⟩ := rfl
          rw [h1, runFinishSeq_keeps_created rest ⟨true, 1⟩ rfl]
          simp

/-- C9: `finish` is infallible: the scheduler handle is always resolved
(ambient or shared) before `BlockingLayer::create` runs under its enter
guard, so the `unwrap` never observes an error and `finish` always returns
an `Operator`. -/
theorem finish_never_fails (b : OperatorBuilder) (insideRt : Bool)
    (st : RuntimeState) :
    (∃ op : Operator, (b.finish insideRt st).1 = Except.ok op)
      ∧ ∀ e : Error, (b.finish insideRt st).1 ≠ Except.error e :=
  ⟨⟨_, rfl⟩, fun _ he => Except.noConfusion he⟩
